import Mathlib

/-!
Verification development for the REST rate-limit bucket manager of the
hikari repository (`hikari/impl/buckets.py` and its collaborators), as
described by the repository's specification and exercised by
`tests/hikari/impl/test_buckets.py`.

The implementation module itself is not part of the source snapshot, so
every operation below is modelled from the specification's data model and
operation descriptions (sections 3 and 4), with the repository's unit
tests fixing the behaviour wherever the specification's wording is
ambiguous.  Times are integers standing for monotonic-clock seconds (the
code's seconds-valued floats enter the design only through comparisons,
sums and differences, which the integers model exactly); counters are
naturals; the cooperative "await" effects of an acquisition are recorded
as an explicit event trace.
-/

namespace HikariBuckets

/- ## Association-list registry primitives

The manager keeps two dictionaries (`route_to_initial_hash` and
`real_hash_to_bucket`).  They are modelled as association lists with
first-match lookup, in-place replacement and first-match erasure. -/

/-- First-match lookup in an association list. -/
def lookupKey {V : Type} : List (String × V) → String → Option V
  | [], _ => none
  | (k, v) :: rest, key => if k = key then some v else lookupKey rest key

/-- Replace the first binding of `key` (append a fresh binding when absent). -/
def setKey {V : Type} : List (String × V) → String → V → List (String × V)
  | [], key, v => [(key, v)]
  | (k, w) :: rest, key, v =>
    if k = key then (key, v) :: rest else (k, w) :: setKey rest key v

/-- Drop the first binding of `key`. -/
def eraseKey {V : Type} : List (String × V) → String → List (String × V)
  | [], _ => []
  | (k, w) :: rest, key => if k = key then rest else (k, w) :: eraseKey rest key

/-- The keys of an association list, in order. -/
def keysOf {V : Type} (l : List (String × V)) : List String :=
  l.map Prod.fst

/- ## Hashes and routes -/

/-- Modelled from the spec: sentinel initial bucket hash meaning "never been
contacted" (`UNKNOWN_HASH` in `hikari/impl/buckets.py`, absent from the
snapshot). -/
def UNKNOWN_HASH : String := "UNKNOWN"

/-- Modelled from the spec: a compiled route (`hikari/internal/routes.py`,
absent from the snapshot) is a route template bound to concrete major
parameters; only the template identity and the major-parameter tuple matter
for bucketing, so both are kept as opaque strings. -/
structure CompiledRoute where
  route : String
  major_params : String
deriving DecidableEq, Repr

/-- Modelled from the spec: the real bucket hash
`initial_hash ; authentication_fingerprint ; major_parameter_tuple`
(`CompiledRoute.create_real_bucket_hash`, absent from the snapshot). -/
def CompiledRoute.create_real_bucket_hash
    (route : CompiledRoute) (initial_hash auth_hash : String) : String :=
  initial_hash ++ ";" ++ auth_hash ++ ";" ++ route.major_params

/-- Modelled from the spec: `_create_authentication_hash` of
`hikari/impl/buckets.py` (absent from the snapshot) is an opaque
deterministic fingerprint of the credential; any injective stand-in is
faithful, since no operation inspects its value. -/
def create_authentication_hash (authentication : String) : String :=
  "auth-" ++ authentication

/-- Modelled from the spec: `_create_unknown_hash` of
`hikari/impl/buckets.py` (absent from the snapshot), equal to
`UNKNOWN ; auth_hash ; major_params(route)`. -/
def create_unknown_hash (route : CompiledRoute) (auth_hash : String) : String :=
  route.create_real_bucket_hash UNKNOWN_HASH auth_hash

/- ## REST bucket -/

/-- Modelled from the spec: per-bucket state of `RESTBucket`
(`hikari/impl/buckets.py`, absent from the snapshot): the current real-hash
name, the compiled route that created it (diagnostic only), the windowed
limiter parameters `(limit, remaining, reset_at, period)`, the
mutual-exclusion gate (held flag plus queued-waiter count), the manager's
`max_rate_limit` knob captured at construction (`none` means unbounded),
and a closed flag.  The global limiter is shared by reference; its
consultation is recorded in the event trace of `acquire` rather than as
bucket state. -/
structure RESTBucket where
  name : String
  route : CompiledRoute
  limit : Nat
  remaining : Nat
  reset_at : Int
  period : Int
  lockHeld : Bool
  lockWaiters : Nat
  max_rate_limit : Option Int
  closed : Bool
deriving DecidableEq, Repr

/-- Character-level test that `p` begins the string `s` (the string
primitive works on byte positions, which a proof cannot evaluate, so the
underlying character list is compared instead). -/
def strStartsWith (p s : String) : Bool :=
  p.data.isPrefixOf s.data

/-- Modelled from the spec: a bucket is unresolved when its name carries the
`UNKNOWN` sentinel; buckets created by the manager are named by their real
hash, which for a never-contacted route is `UNKNOWN;auth;params`, so the
sentinel is read as a prefix of the name. -/
def RESTBucket.is_unknown (b : RESTBucket) : Bool :=
  strStartsWith UNKNOWN_HASH b.name

/-- Modelled from the spec: `is_rate_limited(now)` is true iff
`remaining == 0 ∧ now < reset_at`. -/
def RESTBucket.is_rate_limited (b : RESTBucket) (now : Int) : Bool :=
  b.remaining == 0 && decide (now < b.reset_at)

/-- Modelled from the spec: a bucket is empty when no caller is inside its
scoped handle (the gate is not held) and none is queued on its gate. -/
def RESTBucket.is_empty (b : RESTBucket) : Bool :=
  !b.lockHeld && b.lockWaiters == 0

/-- Modelled from the spec: `close()` is terminal; record it in a flag. -/
def RESTBucket.close (b : RESTBucket) : RESTBucket :=
  { b with closed := true }

/-- Modelled from the spec: `update_rate_limit(remaining, limit, reset_at)`
installs new parameters and recomputes `period := reset_at - now`; the
implementation reads the monotonic clock internally, modelled here as the
explicit argument `now`. -/
def RESTBucket.update_rate_limit
    (b : RESTBucket) (remaining limit : Nat) (reset_at now : Int) : RESTBucket :=
  { b with
    remaining := remaining
    limit := limit
    reset_at := reset_at
    period := reset_at - now }

/-- Modelled from the spec: `resolve(real_hash)` transitions from `UNKNOWN`
to a named bucket and fails (`RuntimeError("Cannot resolve known bucket")`)
when the bucket is already resolved, leaving it unchanged. -/
def RESTBucket.resolve (b : RESTBucket) (real_hash : String) :
    Except String RESTBucket :=
  if b.is_unknown then Except.ok { b with name := real_hash }
  else Except.error "Cannot resolve known bucket"

/-- Modelled from the spec: one step of the windowed-burst limiter's
`acquire` (hikari `rate_limits.WindowedBurstRateLimiter`, absent from the
snapshot): refill when the window lapsed, claim a slot when one remains,
otherwise wait until `reset_at`, refill and claim.  Returns the new
`(remaining, reset_at)`. -/
def wbl_acquire (limit remaining : Nat) (reset_at period now : Int) : Nat × Int :=
  if reset_at ≤ now then (limit - 1, now + period)
  else if remaining > 0 then (remaining - 1, reset_at)
  else (limit - 1, reset_at + period)

/-- The cooperative awaits performed while entering / leaving a bucket,
in order: taking or releasing the per-bucket gate, consulting the
per-bucket window, consulting the shared global limiter. -/
inductive LimiterEvent
  | lockAcquire
  | windowAcquire
  | globalAcquire
  | lockRelease
deriving DecidableEq, Repr

/-- Outcome of `RESTBucket.acquire`. -/
inductive AcquireResult
  | ok
  | rateLimitTooLong
deriving DecidableEq, Repr

/-- Modelled from the spec: the fail-fast test of `acquire` — the bucket is
rate limited and the wait until `reset_at` exceeds the configured
`max_rate_limit` (`none` meaning unbounded never fails). -/
def RESTBucket.tooLong (b : RESTBucket) (now : Int) : Bool :=
  match b.max_rate_limit with
  | none => false
  | some mx => b.is_rate_limited now && decide (mx < b.reset_at - now)

/-- Modelled from the spec: the wait `acquire` predicts at time `now` —
the time left until `reset_at` when the bucket is rate limited, and zero
otherwise (a free slot means no wait). -/
def RESTBucket.predicted_wait (b : RESTBucket) (now : Int) : Int :=
  if b.is_rate_limited now then b.reset_at - now else 0

/-- Modelled from the spec: `RESTBucket.acquire` of
`hikari/impl/buckets.py` (absent from the snapshot), following the
operational description of spec section 4.3, which the repository's unit
tests confirm: take the per-bucket gate first; an unresolved bucket then
returns at once (exempt from its own window and from the global limiter);
a resolved bucket whose predicted wait is too long releases the gate and
fails with `RateLimitTooLong`; otherwise the per-bucket window is consulted
and then the shared global limiter.  Returns the new bucket state, the
trace of awaits in order, and the outcome. -/
def RESTBucket.acquire (b : RESTBucket) (now : Int) :
    RESTBucket × List LimiterEvent × AcquireResult :=
  if b.is_unknown then
    ({ b with lockHeld := true }, [LimiterEvent.lockAcquire], AcquireResult.ok)
  else if b.tooLong now then
    ({ b with lockHeld := false },
     [LimiterEvent.lockAcquire, LimiterEvent.lockRelease],
     AcquireResult.rateLimitTooLong)
  else
    let s := wbl_acquire b.limit b.remaining b.reset_at b.period now
    ({ b with lockHeld := true, remaining := s.1, reset_at := s.2 },
     [LimiterEvent.lockAcquire, LimiterEvent.windowAcquire, LimiterEvent.globalAcquire],
     AcquireResult.ok)

/-- Modelled from the spec: `release()` returns the gate. -/
def RESTBucket.release (b : RESTBucket) : RESTBucket × List LimiterEvent :=
  ({ b with lockHeld := false }, [LimiterEvent.lockRelease])

/-- Modelled from the spec: the scoped handle — entry awaits `acquire`
exactly once (and never releases); exit calls `release` exactly once.  When
the acquire failed, the gate was already returned and exit is a no-op. -/
def RESTBucket.withHandle (b : RESTBucket) (now : Int) :
    RESTBucket × List LimiterEvent × AcquireResult :=
  match b.acquire now with
  | (b1, evs, AcquireResult.ok) =>
    let r := b1.release
    (r.1, evs ++ r.2, AcquireResult.ok)
  | (b1, evs, AcquireResult.rateLimitTooLong) =>
    (b1, evs, AcquireResult.rateLimitTooLong)

/- ## Bucket manager -/

/-- Modelled from the spec: `RESTBucketManager` state
(`hikari/impl/buckets.py`, absent from the snapshot): the learned
route-template → initial-hash mapping, the authoritative real-hash →
bucket registry, the closed-event (`none` when the manager is not running;
the `Bool` records whether the event has been signalled), the GC task
handle (a generation number standing for the spawned task object, `none`
when no task is running), a counter supplying fresh generation numbers,
and the `max_rate_limit` knob (`none` meaning unbounded). -/
structure RESTBucketManager where
  routes_to_hashes : List (String × String)
  real_hashes_to_buckets : List (String × RESTBucket)
  closed_event : Option Bool
  gc_task : Option Nat
  task_gen : Nat
  max_rate_limit : Option Int
deriving DecidableEq, Repr

/-- Modelled from the spec: the manager is alive exactly while its
closed-event field is present. -/
def RESTBucketManager.is_alive (m : RESTBucketManager) : Bool :=
  m.closed_event.isSome

/-- Modelled from the spec: `start()` arms the closed-event and spawns the
GC task, failing with `ComponentStateConflictError` when the closed-event
field shows the manager already started. -/
def RESTBucketManager.start (m : RESTBucketManager) :
    Except String RESTBucketManager :=
  if m.closed_event.isSome then Except.error "ComponentStateConflictError"
  else
    Except.ok
      { m with
        closed_event := some false
        gc_task := some m.task_gen
        task_gen := m.task_gen + 1 }

/-- Modelled from the spec: `close()` closes every bucket in the registry,
clears the registry, signals the closed-event when one is armed, clears
the closed-event field, and cancels the GC task.  Returns the new state,
the buckets that were closed, and whether an event was signalled. -/
def RESTBucketManager.close (m : RESTBucketManager) :
    RESTBucketManager × List RESTBucket × Bool :=
  ({ m with
      real_hashes_to_buckets := []
      closed_event := none
      gc_task := none },
   m.real_hashes_to_buckets.map (fun kb => kb.2.close),
   m.closed_event.isSome)

/-- Modelled from the spec: the GC reclaim test — a bucket is purged when
it is empty and its `reset_at` lies further than `expire_after` in the
past. -/
def staleAt (expire_after now : Int) (b : RESTBucket) : Bool :=
  b.is_empty && decide (b.reset_at < now - expire_after)

/-- Modelled from the spec: `_purge_stale_buckets(expire_after)` of
`hikari/impl/buckets.py` (absent from the snapshot): one GC pass over the
registry keeps every bucket that is not stale and closes and removes every
stale one; the monotonic clock read is the explicit argument `now`.
Returns the new state and the closed buckets. -/
def RESTBucketManager.purge_stale_buckets
    (m : RESTBucketManager) (expire_after now : Int) :
    RESTBucketManager × List RESTBucket :=
  ({ m with
      real_hashes_to_buckets :=
        m.real_hashes_to_buckets.filter (fun kb => !staleAt expire_after now kb.2) },
   (m.real_hashes_to_buckets.filter (fun kb => staleAt expire_after now kb.2)).map
     (fun kb => kb.2.close))

/-- Modelled from the spec: the bucket a manager creates on first acquire
for a real hash: named by that hash, carrying the creating route
(diagnostic) and the manager's `max_rate_limit`; the initial window
parameters are the one-slot defaults the spec leaves unspecified. -/
def RESTBucketManager.mkBucket
    (m : RESTBucketManager) (name : String) (route : CompiledRoute) : RESTBucket :=
  { name := name
    route := route
    limit := 1
    remaining := 1
    reset_at := 0
    period := 1
    lockHeld := false
    lockWaiters := 0
    max_rate_limit := m.max_rate_limit
    closed := false }

/-- Modelled from the spec: `acquire_bucket(route, authentication)` of
`hikari/impl/buckets.py` (absent from the snapshot): fingerprint the
credential, take the route's recorded initial hash (or `UNKNOWN`), build
the real hash, and return the registered bucket for it, inserting a fresh
one when absent.  Nothing is written to `routes_to_hashes`.  Returns the
new state and the real hash under which the caller's bucket is
registered. -/
def RESTBucketManager.acquire_bucket
    (m : RESTBucketManager) (route : CompiledRoute) (authentication : String) :
    RESTBucketManager × String :=
  let auth_hash := create_authentication_hash authentication
  let real_hash :=
    match lookupKey m.routes_to_hashes route.route with
    | some initial => route.create_real_bucket_hash initial auth_hash
    | none => create_unknown_hash route auth_hash
  match lookupKey m.real_hashes_to_buckets real_hash with
  | some _ => (m, real_hash)
  | none =>
    ({ m with
        real_hashes_to_buckets :=
          setKey m.real_hashes_to_buckets real_hash (m.mkBucket real_hash route) },
     real_hash)

/-- Modelled from the spec: `update_rate_limits(route, authentication,
bucket_header, remaining_header, limit_header, reset_after)` of
`hikari/impl/buckets.py` (absent from the snapshot); `now` is the internal
monotonic clock read and the new `reset_at` is `now + reset_after`.  When
the recorded initial hash for the route equals the reported hash, the
existing bucket is updated in place (created first when somehow absent).
Otherwise the route is re-homed: the mapping records the reported hash;
when the route's `UNKNOWN` bucket is present in the registry it is
resolved to the new real hash and re-keyed under it — the same bucket
object, so queued acquirers are unaffected — else a fresh bucket is
created under the new real hash; either way the bucket then receives
`update_rate_limit`.  A failing `resolve` propagates as an error. -/
def RESTBucketManager.update_rate_limits
    (m : RESTBucketManager) (route : CompiledRoute)
    (authentication bucket_header : String)
    (remaining_header limit_header : Nat) (reset_after now : Int) :
    Except String RESTBucketManager :=
  let auth_hash := create_authentication_hash authentication
  let initial := (lookupKey m.routes_to_hashes route.route).getD UNKNOWN_HASH
  let reset_at := now + reset_after
  let real_hash := route.create_real_bucket_hash bucket_header auth_hash
  if initial = bucket_header then
    let b := (lookupKey m.real_hashes_to_buckets real_hash).getD
      (m.mkBucket real_hash route)
    Except.ok
      { m with
        real_hashes_to_buckets :=
          setKey m.real_hashes_to_buckets real_hash
            (b.update_rate_limit remaining_header limit_header reset_at now) }
  else
    let routes2 := setKey m.routes_to_hashes route.route bucket_header
    let unknown_hash := create_unknown_hash route auth_hash
    match lookupKey m.real_hashes_to_buckets unknown_hash with
    | some b =>
      match b.resolve real_hash with
      | Except.ok resolved =>
        Except.ok
          { m with
            routes_to_hashes := routes2
            real_hashes_to_buckets :=
              setKey (eraseKey m.real_hashes_to_buckets unknown_hash) real_hash
                (resolved.update_rate_limit remaining_header limit_header reset_at now) }
      | Except.error e => Except.error e
    | none =>
      Except.ok
        { m with
          routes_to_hashes := routes2
          real_hashes_to_buckets :=
            setKey m.real_hashes_to_buckets real_hash
              ((m.mkBucket real_hash route).update_rate_limit
                remaining_header limit_header reset_at now) }

/- ## Concrete sample states -/

/-- A sample compiled route for concrete instances. -/
def fooRoute : CompiledRoute :=
  { route := "GET;/foo/bar", major_params := "1a2b3c" }

/-- A resolved sample bucket whose window is exhausted until time 1000. -/
def spaghettiBucket : RESTBucket :=
  { name := "spaghetti"
    route := fooRoute
    limit := 5
    remaining := 0
    reset_at := 1000
    period := 10
    lockHeld := false
    lockWaiters := 0
    max_rate_limit := some 60
    closed := false }

/-- An unresolved sample bucket. -/
def unknownBucket : RESTBucket :=
  { name := UNKNOWN_HASH
    route := fooRoute
    limit := 1
    remaining := 1
    reset_at := 0
    period := 1
    lockHeld := false
    lockWaiters := 0
    max_rate_limit := some 60
    closed := false }

/-- An empty sample bucket whose window lapsed far in the past. -/
def staleBucket : RESTBucket :=
  { spaghettiBucket with name := "stale", remaining := 1, reset_at := -100 }

/-- An unresolved sample bucket named by a composite unknown real hash. -/
def unknownCompositeBucket : RESTBucket :=
  { unknownBucket with name := "UNKNOWN;auth-token;1a2b3c" }

/-- A running sample manager holding one live and one stale bucket. -/
def gcManager : RESTBucketManager :=
  { routes_to_hashes := []
    real_hashes_to_buckets := [("keep", spaghettiBucket), ("drop", staleBucket)]
    closed_event := some false
    gc_task := some 0
    task_gen := 1
    max_rate_limit := some 60 }

/-- A running sample manager with empty maps. -/
def freshManager : RESTBucketManager :=
  { routes_to_hashes := []
    real_hashes_to_buckets := []
    closed_event := some false
    gc_task := some 0
    task_gen := 1
    max_rate_limit := some 60 }

/-- A sample manager whose recorded hash for `fooRoute` matches the bucket
registered under the corresponding real hash. -/
def sameHashManager : RESTBucketManager :=
  { routes_to_hashes := [("GET;/foo/bar", "123")]
    real_hashes_to_buckets := [("123;auth-token;1a2b3c", spaghettiBucket)]
    closed_event := some false
    gc_task := some 0
    task_gen := 1
    max_rate_limit := some 60 }

/-- A sample manager holding a stale route mapping and an unresolved bucket
queued under the route's unknown hash. -/
def rehomeManager : RESTBucketManager :=
  { routes_to_hashes := [("GET;/foo/bar", "123")]
    real_hashes_to_buckets := [("UNKNOWN;auth-token;1a2b3c", unknownCompositeBucket)]
    closed_event := some false
    gc_task := some 0
    task_gen := 1
    max_rate_limit := some 60 }

/- ## Registry lemmas -/

theorem lookupKey_setKey_self {V : Type} (l : List (String × V)) (k : String) (v : V) :
    lookupKey (setKey l k v) k = some v := by
  induction l with
  | nil => simp [setKey, lookupKey]
  | cons hd tl ih =>
    obtain ⟨k', w⟩ := hd
    by_cases h : k' = k
    · simp [setKey, h, lookupKey]
    · simp [setKey, h, lookupKey, ih]

theorem lookupKey_setKey_ne {V : Type} (l : List (String × V)) (k k' : String) (v : V)
    (h : k' ≠ k) : lookupKey (setKey l k v) k' = lookupKey l k' := by
  induction l with
  | nil => simp [setKey, lookupKey, Ne.symm h]
  | cons hd tl ih =>
    obtain ⟨k'', w⟩ := hd
    by_cases hk : k'' = k
    · subst hk
      simp [setKey, lookupKey, Ne.symm h]
    · simp [setKey, hk, lookupKey, ih]

theorem keysOf_setKey_of_mem {V : Type} (l : List (String × V)) (k : String) (v w : V)
    (h : lookupKey l k = some w) : keysOf (setKey l k v) = keysOf l := by
  induction l with
  | nil => simp [lookupKey] at h
  | cons hd tl ih =>
    obtain ⟨k', u⟩ := hd
    by_cases hk : k' = k
    · subst hk
      simp [setKey, keysOf]
    · simp only [lookupKey, if_neg hk] at h
      simp only [setKey, if_neg hk, keysOf, List.map_cons, List.cons.injEq]
      exact ⟨trivial, ih h⟩

theorem lookupKey_eq_none_of_not_mem {V : Type} (l : List (String × V)) (k : String)
    (h : k ∉ keysOf l) : lookupKey l k = none := by
  induction l with
  | nil => rfl
  | cons hd tl ih =>
    obtain ⟨k', u⟩ := hd
    simp only [keysOf, List.map_cons, List.mem_cons, not_or] at h
    simp [lookupKey, Ne.symm h.1, ih (by simpa [keysOf] using h.2)]

theorem lookupKey_eraseKey_self {V : Type} (l : List (String × V)) (k : String)
    (hnd : (keysOf l).Nodup) : lookupKey (eraseKey l k) k = none := by
  induction l with
  | nil => rfl
  | cons hd tl ih =>
    obtain ⟨k', u⟩ := hd
    simp only [keysOf, List.map_cons, List.nodup_cons] at hnd
    by_cases hk : k' = k
    · subst hk
      simp only [eraseKey, if_pos rfl]
      exact lookupKey_eq_none_of_not_mem tl k' (by simpa [keysOf] using hnd.1)
    · simp [eraseKey, hk, lookupKey, ih (by simpa [keysOf] using hnd.2)]

theorem lookupKey_eraseKey_ne {V : Type} (l : List (String × V)) (k k' : String)
    (h : k' ≠ k) : lookupKey (eraseKey l k) k' = lookupKey l k' := by
  induction l with
  | nil => rfl
  | cons hd tl ih =>
    obtain ⟨k'', u⟩ := hd
    by_cases hk : k'' = k
    · subst hk
      simp [eraseKey, lookupKey, Ne.symm h]
    · simp [eraseKey, hk, lookupKey, ih]

/- ## Claims about the bucket operations -/

/-- C1, counterexample: the claim that every `acquire`, even on an
unresolved bucket, awaits the global limiter is false on the modelled
code — an unresolved bucket's `acquire` returns successfully having
awaited only the per-bucket gate, never the global limiter. -/
theorem acquire_unknown_skips_global_counterexample :
    unknownBucket.is_unknown = true
    ∧ (unknownBucket.acquire 0).2.2 = AcquireResult.ok
    ∧ LimiterEvent.globalAcquire ∉ (unknownBucket.acquire 0).2.1 := by
  refine ⟨by decide, by decide, by decide⟩

/-- C1, amended: an `acquire` on a resolved bucket that does not fail fast
awaits both the per-bucket window and the global limiter before returning;
an unresolved bucket's `acquire` awaits only the per-bucket gate, exempt
from the per-bucket window and from the global limiter alike. -/
theorem acquire_global_limiter_policy (b : RESTBucket) (now : Int) :
    (b.is_unknown = true →
      (b.acquire now).2.1 = [LimiterEvent.lockAcquire]
      ∧ LimiterEvent.globalAcquire ∉ (b.acquire now).2.1
      ∧ LimiterEvent.windowAcquire ∉ (b.acquire now).2.1)
    ∧ (b.is_unknown = false → b.tooLong now = false →
      LimiterEvent.globalAcquire ∈ (b.acquire now).2.1
      ∧ LimiterEvent.windowAcquire ∈ (b.acquire now).2.1
      ∧ LimiterEvent.lockAcquire ∈ (b.acquire now).2.1) := by
  constructor
  · intro hu
    simp [RESTBucket.acquire, hu]
  · intro hr ht
    simp [RESTBucket.acquire, hr, ht]

/-- C1, witness for the amended statement at concrete buckets. -/
theorem acquire_global_limiter_policy_witness :
    LimiterEvent.globalAcquire ∉ (unknownBucket.acquire 0).2.1
    ∧ LimiterEvent.globalAcquire ∈ (spaghettiBucket.acquire 2000).2.1 := by
  constructor
  · exact ((acquire_global_limiter_policy unknownBucket 0).1 (by decide)).2.1
  · exact ((acquire_global_limiter_policy spaghettiBucket 2000).2 (by decide) (by decide)).1

/-- C4: on a resolved bucket whose predicted wait until `reset_at` exceeds
the configured (non-negative) `max_rate_limit`, `acquire` fails with
`RateLimitTooLong` after taking and then releasing the per-bucket gate, so
the gate is not held on return. -/
theorem acquire_too_long_fails (b : RESTBucket) (now mx : Int)
    (hres : b.is_unknown = false) (hmx : b.max_rate_limit = some mx)
    (h0 : 0 ≤ mx) (hw : mx < b.predicted_wait now) :
    b.acquire now =
      ({ b with lockHeld := false },
       [LimiterEvent.lockAcquire, LimiterEvent.lockRelease],
       AcquireResult.rateLimitTooLong)
    ∧ (b.acquire now).1.lockHeld = false := by
  have hrl : b.is_rate_limited now = true := by
    by_contra hc
    rw [Bool.not_eq_true] at hc
    rw [RESTBucket.predicted_wait, hc] at hw
    simp at hw
    exact absurd hw (not_lt.mpr h0)
  have hgt : mx < b.reset_at - now := by
    rwa [RESTBucket.predicted_wait, hrl] at hw
  have htl : b.tooLong now = true := by
    simp [RESTBucket.tooLong, hmx, hrl, hgt]
  refine ⟨?_, ?_⟩ <;> simp [RESTBucket.acquire, hres, htl]

/-- C4, witness: `spaghettiBucket` at time 0 predicts a 1000 second wait
against a 60 second cap. -/
theorem acquire_too_long_fails_witness :
    spaghettiBucket.acquire 0 =
      ({ spaghettiBucket with lockHeld := false },
       [LimiterEvent.lockAcquire, LimiterEvent.lockRelease],
       AcquireResult.rateLimitTooLong)
    ∧ (spaghettiBucket.acquire 0).1.lockHeld = false :=
  acquire_too_long_fails spaghettiBucket 0 60 (by decide) (by decide) (by decide) (by decide)

/-- C5: entering the scoped handle of a resolved bucket that is not failing
fast performs exactly one `acquire`, whose trace awaits the gate, the
per-bucket window and the global limiter in order and contains no release;
the gate is then held; exiting performs exactly one `release`, whose only
event returns the gate, and the gate is not held afterwards. -/
theorem withHandle_scoped (b : RESTBucket) (now : Int)
    (hres : b.is_unknown = false) (hok : b.tooLong now = false) :
    ∃ b1 : RESTBucket,
      b.acquire now =
        (b1,
         [LimiterEvent.lockAcquire, LimiterEvent.windowAcquire,
          LimiterEvent.globalAcquire],
         AcquireResult.ok)
      ∧ b1.lockHeld = true
      ∧ b1.release = ({ b1 with lockHeld := false }, [LimiterEvent.lockRelease])
      ∧ b.withHandle now =
          ({ b1 with lockHeld := false },
           [LimiterEvent.lockAcquire, LimiterEvent.windowAcquire,
            LimiterEvent.globalAcquire, LimiterEvent.lockRelease],
           AcquireResult.ok)
      ∧ ({ b1 with lockHeld := false } : RESTBucket).lockHeld = false := by
  have hacq : b.acquire now =
      ({ b with
          lockHeld := true
          remaining := (wbl_acquire b.limit b.remaining b.reset_at b.period now).1
          reset_at := (wbl_acquire b.limit b.remaining b.reset_at b.period now).2 },
       [LimiterEvent.lockAcquire, LimiterEvent.windowAcquire,
        LimiterEvent.globalAcquire],
       AcquireResult.ok) := by
    simp [RESTBucket.acquire, hres, hok]
  refine ⟨_, hacq, rfl, rfl, ?_, rfl⟩
  simp [RESTBucket.withHandle, hacq, RESTBucket.release]

/-- C5, witness: the scoped handle on `spaghettiBucket` at time 2000. -/
theorem withHandle_scoped_witness :
    ∃ b1 : RESTBucket,
      spaghettiBucket.acquire 2000 =
        (b1,
         [LimiterEvent.lockAcquire, LimiterEvent.windowAcquire,
          LimiterEvent.globalAcquire],
         AcquireResult.ok)
      ∧ b1.lockHeld = true
      ∧ b1.release = ({ b1 with lockHeld := false }, [LimiterEvent.lockRelease])
      ∧ spaghettiBucket.withHandle 2000 =
          ({ b1 with lockHeld := false },
           [LimiterEvent.lockAcquire, LimiterEvent.windowAcquire,
            LimiterEvent.globalAcquire, LimiterEvent.lockRelease],
           AcquireResult.ok)
      ∧ ({ b1 with lockHeld := false } : RESTBucket).lockHeld = false :=
  withHandle_scoped spaghettiBucket 2000 (by decide) (by decide)

/-- C8: `update_rate_limit` installs exactly the given `remaining`, `limit`
and `reset_at`, recomputes `period` as `reset_at` minus the monotonic time,
and changes nothing else about the bucket. -/
theorem update_rate_limit_installs_parameters
    (b : RESTBucket) (remaining limit : Nat) (reset_at now : Int) :
    (b.update_rate_limit remaining limit reset_at now).remaining = remaining
    ∧ (b.update_rate_limit remaining limit reset_at now).limit = limit
    ∧ (b.update_rate_limit remaining limit reset_at now).reset_at = reset_at
    ∧ (b.update_rate_limit remaining limit reset_at now).period = reset_at - now
    ∧ (b.update_rate_limit remaining limit reset_at now).name = b.name
    ∧ (b.update_rate_limit remaining limit reset_at now).route = b.route
    ∧ (b.update_rate_limit remaining limit reset_at now).lockHeld = b.lockHeld
    ∧ (b.update_rate_limit remaining limit reset_at now).lockWaiters = b.lockWaiters
    ∧ (b.update_rate_limit remaining limit reset_at now).max_rate_limit = b.max_rate_limit
    ∧ (b.update_rate_limit remaining limit reset_at now).closed = b.closed :=
  ⟨rfl, rfl, rfl, rfl, rfl, rfl, rfl, rfl, rfl, rfl⟩

/-- C9: `resolve` on an unresolved bucket renames it to the given real
hash, after which it is resolved, any further `resolve` on it fails, and in
general `resolve` on any resolved bucket fails (returning no changed
bucket, so the name stands). -/
theorem resolve_exactly_once (b : RESTBucket) (h : String)
    (hb : b.is_unknown = true) (hh : strStartsWith UNKNOWN_HASH h = false) :
    b.resolve h = Except.ok { b with name := h }
    ∧ ({ b with name := h } : RESTBucket).is_unknown = false
    ∧ (∀ h2 : String, ({ b with name := h } : RESTBucket).resolve h2 =
        Except.error "Cannot resolve known bucket")
    ∧ (∀ (b2 : RESTBucket) (h2 : String), b2.is_unknown = false →
        b2.resolve h2 = Except.error "Cannot resolve known bucket") := by
  have hr : ({ b with name := h } : RESTBucket).is_unknown = false := by
    simpa [RESTBucket.is_unknown] using hh
  refine ⟨by simp [RESTBucket.resolve, hb], hr, ?_, ?_⟩
  · intro h2
    simp [RESTBucket.resolve, hr]
  · intro b2 h2 hb2
    simp [RESTBucket.resolve, hb2]

/-- C9, witness: resolving `unknownBucket` to a concrete real hash. -/
theorem resolve_exactly_once_witness :
    unknownBucket.resolve "blep;auth-x;1a2b3c" =
      Except.ok { unknownBucket with name := "blep;auth-x;1a2b3c" }
    ∧ ({ unknownBucket with name := "blep;auth-x;1a2b3c" } : RESTBucket).is_unknown = false
    ∧ (∀ h2 : String,
        ({ unknownBucket with name := "blep;auth-x;1a2b3c" } : RESTBucket).resolve h2 =
          Except.error "Cannot resolve known bucket")
    ∧ (∀ (b2 : RESTBucket) (h2 : String), b2.is_unknown = false →
        b2.resolve h2 = Except.error "Cannot resolve known bucket") :=
  resolve_exactly_once unknownBucket "blep;auth-x;1a2b3c" (by decide) (by decide)

/- ## Hash lemmas -/

theorem strStartsWith_append (p t : String) : strStartsWith p (p ++ t) = true := by
  rw [strStartsWith, String.data_append, List.isPrefixOf_iff_prefix]
  exact List.prefix_append p.data t.data

theorem is_unknown_of_unknown_hash (route : CompiledRoute) (a : String) :
    strStartsWith UNKNOWN_HASH (create_unknown_hash route a) = true := by
  rw [strStartsWith, create_unknown_hash, CompiledRoute.create_real_bucket_hash,
    List.isPrefixOf_iff_prefix]
  simp only [String.data_append, List.append_assoc]
  exact List.prefix_append _ _

theorem create_real_bucket_hash_inj_initial (route : CompiledRoute) (i1 i2 a : String)
    (h : route.create_real_bucket_hash i1 a = route.create_real_bucket_hash i2 a) :
    i1 = i2 := by
  apply String.ext
  have hd := congrArg String.data h
  simp only [CompiledRoute.create_real_bucket_hash, String.data_append,
    List.append_assoc] at hd
  exact List.append_cancel_right hd

theorem unknown_hash_ne_real (route : CompiledRoute) (a bucket_header : String)
    (hnu : strStartsWith UNKNOWN_HASH bucket_header = false) :
    create_unknown_hash route a ≠ route.create_real_bucket_hash bucket_header a := by
  intro h
  have he : UNKNOWN_HASH = bucket_header :=
    create_real_bucket_hash_inj_initial route UNKNOWN_HASH bucket_header a h
  rw [← he] at hnu
  have ht : strStartsWith UNKNOWN_HASH UNKNOWN_HASH = true := by decide
  rw [ht] at hnu
  simp at hnu

/- ## Claims about the manager -/

/-- C2: one `purge_stale_buckets` pass at time `now` with a non-negative
`expire_after` removes and closes a registry entry exactly when its bucket
is empty and `reset_at < now - expire_after`; every non-empty bucket is
kept, and every empty bucket that is still rate limited (`now < reset_at`)
or not yet expired (`reset_at ≥ now - expire_after`) is kept untouched. -/
theorem purge_stale_buckets_correct
    (m : RESTBucketManager) (expire_after now : Int) (h_ea : 0 ≤ expire_after)
    (k : String) (b : RESTBucket)
    (hmem : (k, b) ∈ m.real_hashes_to_buckets) :
    ((k, b) ∈ (m.purge_stale_buckets expire_after now).1.real_hashes_to_buckets ↔
      ¬(b.is_empty = true ∧ b.reset_at < now - expire_after))
    ∧ (b.is_empty = false →
        (k, b) ∈ (m.purge_stale_buckets expire_after now).1.real_hashes_to_buckets)
    ∧ (b.is_empty = true → now < b.reset_at →
        (k, b) ∈ (m.purge_stale_buckets expire_after now).1.real_hashes_to_buckets)
    ∧ (b.is_empty = true → now - expire_after ≤ b.reset_at →
        (k, b) ∈ (m.purge_stale_buckets expire_after now).1.real_hashes_to_buckets)
    ∧ (b.is_empty = true → b.reset_at < now - expire_after →
        b.close ∈ (m.purge_stale_buckets expire_after now).2
        ∧ (k, b) ∉ (m.purge_stale_buckets expire_after now).1.real_hashes_to_buckets) := by
  have hkept : ∀ kb : String × RESTBucket,
      kb ∈ (m.purge_stale_buckets expire_after now).1.real_hashes_to_buckets ↔
        kb ∈ m.real_hashes_to_buckets ∧ staleAt expire_after now kb.2 = false := by
    intro kb
    simp [RESTBucketManager.purge_stale_buckets, List.mem_filter]
  have hstale : staleAt expire_after now b = true ↔
      (b.is_empty = true ∧ b.reset_at < now - expire_after) := by
    simp [staleAt, Bool.and_eq_true, decide_eq_true_eq]
  have hfalse : staleAt expire_after now b = false ↔
      ¬(b.is_empty = true ∧ b.reset_at < now - expire_after) := by
    rw [← hstale]
    cases staleAt expire_after now b <;> simp
  refine ⟨?_, ?_, ?_, ?_, ?_⟩
  · rw [hkept]
    constructor
    · intro hx
      exact hfalse.mp hx.2
    · intro hn
      exact ⟨hmem, hfalse.mpr hn⟩
  · intro hne
    rw [hkept]
    refine ⟨hmem, hfalse.mpr ?_⟩
    intro hx
    rw [hx.1] at hne
    simp at hne
  · intro hemp hlt
    rw [hkept]
    refine ⟨hmem, hfalse.mpr ?_⟩
    intro hx
    omega
  · intro hemp hge
    rw [hkept]
    refine ⟨hmem, hfalse.mpr ?_⟩
    intro hx
    omega
  · intro hemp hlt
    have ht : staleAt expire_after now b = true := hstale.mpr ⟨hemp, hlt⟩
    constructor
    · refine List.mem_map.2 ⟨(k, b), List.mem_filter.2 ⟨hmem, ?_⟩, rfl⟩
      simpa using ht
    · rw [hkept]
      intro hx
      rw [ht] at hx
      simp at hx

/-- C2, witness: a stale empty bucket is closed and dropped by a concrete
GC pass. -/
theorem purge_stale_buckets_correct_witness :
    staleBucket.close ∈ (gcManager.purge_stale_buckets 10 0).2
    ∧ ("drop", staleBucket) ∉
        (gcManager.purge_stale_buckets 10 0).1.real_hashes_to_buckets :=
  (purge_stale_buckets_correct gcManager 10 0 (by decide) "drop" staleBucket
    (by decide)).2.2.2.2 (by decide) (by decide)

/-- C6: for a route with no recorded initial hash, `acquire_bucket` keys
the caller under the real hash `UNKNOWN;auth_hash;major_params`, registers
a fresh unresolved bucket there when none exists, and writes nothing to
`routes_to_hashes`. -/
theorem acquire_bucket_fresh_route (m : RESTBucketManager)
    (route : CompiledRoute) (authentication : String)
    (h1 : lookupKey m.routes_to_hashes route.route = none)
    (h2 : lookupKey m.real_hashes_to_buckets
        (create_unknown_hash route (create_authentication_hash authentication)) = none) :
    (m.acquire_bucket route authentication).2 =
      create_unknown_hash route (create_authentication_hash authentication)
    ∧ (m.acquire_bucket route authentication).1.routes_to_hashes = m.routes_to_hashes
    ∧ lookupKey (m.acquire_bucket route authentication).1.real_hashes_to_buckets
        (create_unknown_hash route (create_authentication_hash authentication)) =
      some (m.mkBucket
        (create_unknown_hash route (create_authentication_hash authentication)) route)
    ∧ (m.mkBucket
        (create_unknown_hash route (create_authentication_hash authentication))
        route).is_unknown = true := by
  have hab : m.acquire_bucket route authentication =
      ({ m with
          real_hashes_to_buckets :=
            setKey m.real_hashes_to_buckets
              (create_unknown_hash route (create_authentication_hash authentication))
              (m.mkBucket
                (create_unknown_hash route (create_authentication_hash authentication))
                route) },
       create_unknown_hash route (create_authentication_hash authentication)) := by
    simp [RESTBucketManager.acquire_bucket, h1, h2]
  refine ⟨by rw [hab], by rw [hab], ?_, ?_⟩
  · rw [hab]
    exact lookupKey_setKey_self _ _ _
  · simpa [RESTBucket.is_unknown, RESTBucketManager.mkBucket] using
      is_unknown_of_unknown_hash route (create_authentication_hash authentication)

/-- C6, witness: acquiring a never-seen route on a fresh manager. -/
theorem acquire_bucket_fresh_route_witness :
    (freshManager.acquire_bucket fooRoute "token").2 =
      create_unknown_hash fooRoute (create_authentication_hash "token")
    ∧ (freshManager.acquire_bucket fooRoute "token").1.routes_to_hashes =
        freshManager.routes_to_hashes
    ∧ lookupKey (freshManager.acquire_bucket fooRoute "token").1.real_hashes_to_buckets
        (create_unknown_hash fooRoute (create_authentication_hash "token")) =
      some (freshManager.mkBucket
        (create_unknown_hash fooRoute (create_authentication_hash "token")) fooRoute)
    ∧ (freshManager.mkBucket
        (create_unknown_hash fooRoute (create_authentication_hash "token"))
        fooRoute).is_unknown = true :=
  acquire_bucket_fresh_route freshManager fooRoute "token" (by decide) (by decide)

/-- C7: `update_rate_limits` with the server hash equal to the route's
recorded initial hash only replaces the stored bucket by its
`update_rate_limit remaining limit (now + reset_after)` image: both maps
keep exactly the same keys, the route's mapping is untouched, and every
other registry binding is untouched. -/
theorem update_rate_limits_same_hash (m : RESTBucketManager) (route : CompiledRoute)
    (authentication bucket_header : String) (remaining_header limit_header : Nat)
    (reset_after now : Int) (b : RESTBucket)
    (h1 : lookupKey m.routes_to_hashes route.route = some bucket_header)
    (h2 : lookupKey m.real_hashes_to_buckets
        (route.create_real_bucket_hash bucket_header
          (create_authentication_hash authentication)) = some b) :
    m.update_rate_limits route authentication bucket_header remaining_header
        limit_header reset_after now =
      Except.ok
        { m with
          real_hashes_to_buckets :=
            setKey m.real_hashes_to_buckets
              (route.create_real_bucket_hash bucket_header
                (create_authentication_hash authentication))
              (b.update_rate_limit remaining_header limit_header
                (now + reset_after) now) }
    ∧ keysOf (setKey m.real_hashes_to_buckets
          (route.create_real_bucket_hash bucket_header
            (create_authentication_hash authentication))
          (b.update_rate_limit remaining_header limit_header (now + reset_after) now)) =
        keysOf m.real_hashes_to_buckets
    ∧ lookupKey (setKey m.real_hashes_to_buckets
          (route.create_real_bucket_hash bucket_header
            (create_authentication_hash authentication))
          (b.update_rate_limit remaining_header limit_header (now + reset_after) now))
        (route.create_real_bucket_hash bucket_header
          (create_authentication_hash authentication)) =
      some (b.update_rate_limit remaining_header limit_header (now + reset_after) now)
    ∧ (∀ k2 : String,
        k2 ≠ route.create_real_bucket_hash bucket_header
          (create_authentication_hash authentication) →
        lookupKey (setKey m.real_hashes_to_buckets
            (route.create_real_bucket_hash bucket_header
              (create_authentication_hash authentication))
            (b.update_rate_limit remaining_header limit_header (now + reset_after) now))
          k2 = lookupKey m.real_hashes_to_buckets k2) := by
  refine ⟨?_, ?_, ?_, ?_⟩
  · simp [RESTBucketManager.update_rate_limits, h1, h2]
  · exact keysOf_setKey_of_mem _ _ _ b h2
  · exact lookupKey_setKey_self _ _ _
  · intro k2 hk2
    exact lookupKey_setKey_ne _ _ _ _ hk2

/-- C7, witness: a matching-hash update on a concrete manager. -/
theorem update_rate_limits_same_hash_witness :
    sameHashManager.update_rate_limits fooRoute "token" "123" 22 23 7 27 =
      Except.ok
        { sameHashManager with
          real_hashes_to_buckets :=
            setKey sameHashManager.real_hashes_to_buckets
              (fooRoute.create_real_bucket_hash "123"
                (create_authentication_hash "token"))
              (spaghettiBucket.update_rate_limit 22 23 (27 + 7) 27) }
    ∧ keysOf (setKey sameHashManager.real_hashes_to_buckets
          (fooRoute.create_real_bucket_hash "123" (create_authentication_hash "token"))
          (spaghettiBucket.update_rate_limit 22 23 (27 + 7) 27)) =
        keysOf sameHashManager.real_hashes_to_buckets
    ∧ lookupKey (setKey sameHashManager.real_hashes_to_buckets
          (fooRoute.create_real_bucket_hash "123" (create_authentication_hash "token"))
          (spaghettiBucket.update_rate_limit 22 23 (27 + 7) 27))
        (fooRoute.create_real_bucket_hash "123" (create_authentication_hash "token")) =
      some (spaghettiBucket.update_rate_limit 22 23 (27 + 7) 27)
    ∧ (∀ k2 : String,
        k2 ≠ fooRoute.create_real_bucket_hash "123" (create_authentication_hash "token") →
        lookupKey (setKey sameHashManager.real_hashes_to_buckets
            (fooRoute.create_real_bucket_hash "123" (create_authentication_hash "token"))
            (spaghettiBucket.update_rate_limit 22 23 (27 + 7) 27))
          k2 = lookupKey sameHashManager.real_hashes_to_buckets k2) :=
  update_rate_limits_same_hash sameHashManager fooRoute "token" "123" 22 23 7 27
    spaghettiBucket (by decide) (by decide)

/-- C3: when `update_rate_limits` observes a server hash different from the
route's recorded initial hash, it records the server hash for the route;
when the route's unresolved (`UNKNOWN`-hash) bucket is present in the
registry, that same bucket object — every field but the name preserved —
is resolved to the new real hash and re-keyed under it, the unknown key
disappearing, and otherwise a fresh bucket is created under the new real
hash; in both branches the bucket then receives
`update_rate_limit remaining limit (now + reset_after)`. -/
theorem update_rate_limits_rehome (m : RESTBucketManager) (route : CompiledRoute)
    (authentication bucket_header : String) (remaining_header limit_header : Nat)
    (reset_after now : Int)
    (hne : (lookupKey m.routes_to_hashes route.route).getD UNKNOWN_HASH ≠ bucket_header)
    (hnu : strStartsWith UNKNOWN_HASH bucket_header = false)
    (hnd : (keysOf m.real_hashes_to_buckets).Nodup) :
    (∀ b : RESTBucket,
      lookupKey m.real_hashes_to_buckets
          (create_unknown_hash route (create_authentication_hash authentication)) =
        some b →
      b.is_unknown = true →
      ∃ m2 : RESTBucketManager,
        m.update_rate_limits route authentication bucket_header remaining_header
            limit_header reset_after now = Except.ok m2
        ∧ lookupKey m2.routes_to_hashes route.route = some bucket_header
        ∧ lookupKey m2.real_hashes_to_buckets
            (route.create_real_bucket_hash bucket_header
              (create_authentication_hash authentication)) =
          some (({ b with
              name := route.create_real_bucket_hash bucket_header
                (create_authentication_hash authentication) } :
              RESTBucket).update_rate_limit remaining_header limit_header
            (now + reset_after) now)
        ∧ lookupKey m2.real_hashes_to_buckets
            (create_unknown_hash route (create_authentication_hash authentication)) =
          none)
    ∧ (lookupKey m.real_hashes_to_buckets
          (create_unknown_hash route (create_authentication_hash authentication)) =
        none →
      ∃ m3 : RESTBucketManager,
        m.update_rate_limits route authentication bucket_header remaining_header
            limit_header reset_after now = Except.ok m3
        ∧ lookupKey m3.routes_to_hashes route.route = some bucket_header
        ∧ lookupKey m3.real_hashes_to_buckets
            (route.create_real_bucket_hash bucket_header
              (create_authentication_hash authentication)) =
          some ((m.mkBucket
              (route.create_real_bucket_hash bucket_header
                (create_authentication_hash authentication))
              route).update_rate_limit remaining_header limit_header
            (now + reset_after) now)) := by
  have hneq : create_unknown_hash route (create_authentication_hash authentication) ≠
      route.create_real_bucket_hash bucket_header
        (create_authentication_hash authentication) :=
    unknown_hash_ne_real route (create_authentication_hash authentication)
      bucket_header hnu
  constructor
  · intro b hb hu
    have hupd : m.update_rate_limits route authentication bucket_header
        remaining_header limit_header reset_after now =
      Except.ok
        { m with
          routes_to_hashes := setKey m.routes_to_hashes route.route bucket_header
          real_hashes_to_buckets :=
            setKey (eraseKey m.real_hashes_to_buckets
                (create_unknown_hash route (create_authentication_hash authentication)))
              (route.create_real_bucket_hash bucket_header
                (create_authentication_hash authentication))
              (({ b with
                  name := route.create_real_bucket_hash bucket_header
                    (create_authentication_hash authentication) } :
                  RESTBucket).update_rate_limit remaining_header limit_header
                (now + reset_after) now) } := by
      simp [RESTBucketManager.update_rate_limits, hne, hb, RESTBucket.resolve, hu]
    refine ⟨_, hupd, lookupKey_setKey_self _ _ _, lookupKey_setKey_self _ _ _, ?_⟩
    rw [lookupKey_setKey_ne _ _ _ _ hneq]
    exact lookupKey_eraseKey_self _ _ hnd
  · intro hnone
    have hupd : m.update_rate_limits route authentication bucket_header
        remaining_header limit_header reset_after now =
      Except.ok
        { m with
          routes_to_hashes := setKey m.routes_to_hashes route.route bucket_header
          real_hashes_to_buckets :=
            setKey m.real_hashes_to_buckets
              (route.create_real_bucket_hash bucket_header
                (create_authentication_hash authentication))
              ((m.mkBucket
                  (route.create_real_bucket_hash bucket_header
                    (create_authentication_hash authentication))
                  route).update_rate_limit remaining_header limit_header
                (now + reset_after) now) } := by
      simp [RESTBucketManager.update_rate_limits, hne, hnone]
    exact ⟨_, hupd, lookupKey_setKey_self _ _ _, lookupKey_setKey_self _ _ _⟩

/-- C3, witness: re-homing a route whose unresolved bucket is queued in a
concrete manager. -/
theorem update_rate_limits_rehome_witness :
    ∃ m2 : RESTBucketManager,
      rehomeManager.update_rate_limits fooRoute "token" "blep" 22 23 4 27 =
        Except.ok m2
      ∧ lookupKey m2.routes_to_hashes fooRoute.route = some "blep"
      ∧ lookupKey m2.real_hashes_to_buckets
          (fooRoute.create_real_bucket_hash "blep" (create_authentication_hash "token")) =
        some (({ unknownCompositeBucket with
            name := fooRoute.create_real_bucket_hash "blep"
              (create_authentication_hash "token") } :
            RESTBucket).update_rate_limit 22 23 (27 + 4) 27)
      ∧ lookupKey m2.real_hashes_to_buckets
          (create_unknown_hash fooRoute (create_authentication_hash "token")) = none :=
  (update_rate_limits_rehome rehomeManager fooRoute "token" "blep" 22 23 4 27
      (by decide) (by decide) (by decide)).1 unknownCompositeBucket
    (by decide) (by decide)

/-- C10: the manager is alive exactly while the closed-event field is
present; `close` signals the event precisely when one was armed, clears the
field and leaves the manager not alive; `start` fails with the
state-conflict error exactly when the field is present, and otherwise
succeeds, arming a fresh event and spawning a GC task — in particular a
manager is restartable immediately after `close`. -/
theorem manager_lifecycle (m : RESTBucketManager) :
    (m.is_alive = m.closed_event.isSome)
    ∧ ((m.close).2.2 = m.closed_event.isSome)
    ∧ ((m.close).1.closed_event = none)
    ∧ ((m.close).1.is_alive = false)
    ∧ (m.closed_event.isSome = true →
        m.start = Except.error "ComponentStateConflictError")
    ∧ (m.closed_event = none →
        m.start = Except.ok
          { m with
            closed_event := some false
            gc_task := some m.task_gen
            task_gen := m.task_gen + 1 })
    ∧ ((m.close).1.start = Except.ok
        { (m.close).1 with
          closed_event := some false
          gc_task := some m.task_gen
          task_gen := m.task_gen + 1 }) := by
  refine ⟨rfl, rfl, rfl, rfl, ?_, ?_, ?_⟩
  · intro h
    simp [RESTBucketManager.start, h]
  · intro h
    simp [RESTBucketManager.start, h]
  · simp [RESTBucketManager.start, RESTBucketManager.close]

/-- C10, witness: a running manager refuses `start`, and after `close` it
is not alive and restarts successfully. -/
theorem manager_lifecycle_witness :
    gcManager.start = Except.error "ComponentStateConflictError"
    ∧ (gcManager.close).1.is_alive = false
    ∧ (gcManager.close).1.start = Except.ok
        { (gcManager.close).1 with
          closed_event := some false
          gc_task := some gcManager.task_gen
          task_gen := gcManager.task_gen + 1 } :=
  ⟨(manager_lifecycle gcManager).2.2.2.2.1 (by decide),
   (manager_lifecycle gcManager).2.2.2.1,
   (manager_lifecycle gcManager).2.2.2.2.2.2⟩

end HikariBuckets
